import Mathlib

/-!
# Verification of the `numeroscadastrais` CPF library

A shallow embedding of `numeroscadastrais/cpf.py` and
`numeroscadastrais/exceptions.py`.  Python strings are modelled as
`List Char`; Python exceptions become an error value carried in `Except`.
The embedding has two layers: the first models the functions on
decimal-digit content, where `int()` is total; the second (suffix `E`)
additionally carries the bare `ValueError` that `int()` raises on
`Numeric_Type=Digit` characters such as `'²'`, which `str.isdigit` accepts
but no `except InvalidIdError` clause can catch.  Every definition is
translated from the source file; the one exception is `specCheckDigits`,
which follows the specification's wording of the checksum algorithm so that
it can be compared with the source's `calc_check_digit`.
-/

namespace NumerosCadastrais

/-- The exception classes of `exceptions.py`.  The class hierarchy is
`InvalidIdError > InvalidIdFormat > {InvalidCharacters, InvalidLength}` and
`InvalidIdError > InvalidIdValue > {InvalidCheckDigit, InvalidSpecificId}`;
the hierarchy itself is modelled by the predicates below. -/
inductive ErrorKind where
  | invalidCharacters
  | invalidLength
  | invalidCheckDigit
  | invalidSpecificId
  deriving DecidableEq, Repr

/-- A raised Python exception: its class together with its message string. -/
structure PyError where
  kind : ErrorKind
  msg : String
  deriving DecidableEq, Repr

/-- Membership in the `InvalidIdFormat` branch of the exception hierarchy. -/
def ErrorKind.isInvalidIdFormat : ErrorKind → Bool
  | .invalidCharacters => true
  | .invalidLength => true
  | _ => false

/-- Membership in the `InvalidIdValue` branch of the exception hierarchy. -/
def ErrorKind.isInvalidIdValue : ErrorKind → Bool
  | .invalidCheckDigit => true
  | .invalidSpecificId => true
  | _ => false

/-- Membership in the root `InvalidIdError` class: every kind of
`exceptions.py` derives from it. -/
def ErrorKind.isInvalidIdError (k : ErrorKind) : Bool :=
  k.isInvalidIdFormat || k.isInvalidIdValue

/-- The character class matched by Python's regex `\s` on `str` inputs:
the Unicode whitespace code points (tab through carriage return, the
information separators, space, next line, no-break space, ogham space mark,
the en-quad..hair-space block, line/paragraph separator, narrow no-break
space, medium mathematical space, ideographic space). -/
def pyWhitespace (c : Char) : Bool :=
  (9 ≤ c.toNat && c.toNat ≤ 13) || (28 ≤ c.toNat && c.toNat ≤ 32) ||
  c.toNat == 133 || c.toNat == 160 || c.toNat == 5760 ||
  (8192 ≤ c.toNat && c.toNat ≤ 8202) || c.toNat == 8232 || c.toNat == 8233 ||
  c.toNat == 8239 || c.toNat == 8287 || c.toNat == 12288

/-- A character removed by `strip_symbols`: anything the regex `[\s.-]`
matches. -/
def isStripChar (c : Char) : Bool :=
  pyWhitespace c || c == '.' || c == '-'

/-- `strip_symbols` of `cpf.py`: `re.sub(r'[\s.-]', '', cpf_string)`, i.e.
delete every occurrence of a whitespace character, `.` or `-`. -/
def strip_symbols (s : List Char) : List Char :=
  s.filter (fun c => !isStripChar c)

/-- An ASCII decimal digit `0`-`9`. -/
def isAsciiDigit (c : Char) : Bool :=
  48 ≤ c.toNat && c.toNat ≤ 57

/-- Python's `str.isdigit()`, modelled for ASCII content: true iff the
string is nonempty and every character is a decimal digit.  Note that
Python's `"".isdigit()` is `False`, which this model preserves. -/
def pyIsdigit (s : List Char) : Bool :=
  !s.isEmpty && s.all isAsciiDigit

/-- Python's `int(c)` for a single decimal-digit character. -/
def pyInt (c : Char) : Nat :=
  c.toNat - 48

/-- Rendering of a single digit value `0`-`9` as a character, as Python's
`'%d' % dv` does for values below ten. -/
def digitChar (n : Nat) : Char :=
  Char.ofNat (48 + n)

/-- `require_format` of `cpf.py`: raise `InvalidCharacters` unless the
candidate is all digits, then raise `InvalidLength` unless the length is 11
(or 9 when `allow_missing_check_digits` is set). -/
def require_format (cpf_digits : List Char) (allow_missing_check_digits : Bool) :
    Except PyError Unit :=
  if pyIsdigit cpf_digits = false then
    .error ⟨.invalidCharacters, "CPF must contain digits only."⟩
  else if cpf_digits.length ≠ 11 then
    if !allow_missing_check_digits then
      .error ⟨.invalidLength, "CPF length must be 11 digits"⟩
    else if cpf_digits.length ≠ 9 then
      .error ⟨.invalidLength, "CPF length must be either 9 or 11 digits"⟩
    else .ok ()
  else .ok ()

/-- The generator `multiply_digits` inside `calc_check_digit`: pair each
digit with its weight (truncating at the shorter list, as `zip` does) and
multiply. -/
def multiply_digits (digits : List Char) (weights : List Nat) : List Nat :=
  (digits.zip weights).map (fun p => pyInt p.1 * p.2)

/-- `calc_check_digit` of `cpf.py`: keep only the first nine digits, weight
them by `range(1, 10)` for the first check digit and—after appending that
digit—by `range(0, 10)` for the second, each time reducing the sum
`mod 11` then `mod 10`. -/
def calc_check_digit (digits : List Char) : List Char :=
  let cpf_digits := digits.take 9
  let dv1 := (multiply_digits cpf_digits (List.range' 1 9)).sum % 11 % 10
  let dv2 :=
    (multiply_digits (cpf_digits ++ [digitChar dv1]) (List.range' 0 10)).sum % 11 % 10
  [digitChar dv1, digitChar dv2]

/-- `has_correct_check_digit` of `cpf.py`: recompute the check digits from
`cpf_digits[:-2]` and compare them with `cpf_digits[-2:]`. -/
def has_correct_check_digit (cpf_digits : List Char) : Bool :=
  calc_check_digit (cpf_digits.take (cpf_digits.length - 2)) ==
    cpf_digits.drop (cpf_digits.length - 2)

/-- `is_specifically_invalid_number` of `cpf.py`:
`all(cpf_digits[i] == cpf_digits[0] for i in range(1, 9))`.  Python indexing
would raise `IndexError` on strings shorter than nine characters; the model
is total via `getD`, and the code only ever applies it to candidates of
length 9 or 11. -/
def is_specifically_invalid_number (cpf_digits : List Char) : Bool :=
  (List.range' 1 8).all (fun i => cpf_digits.getD i ' ' == cpf_digits.getD 0 ' ')

/-- `require_valid` of `cpf.py`.  Faithful to the source, including the test
`len(cpf_string) == 11` on the *raw*, unstripped input (line 251) guarding
the checksum and denylist checks, and the fact that the denylist branch
raises `InvalidCheckDigit` (line 255). -/
def require_valid (cpf_string : List Char) (allow_missing_check_digits : Bool) :
    Except PyError Unit :=
  let cpf_digits := strip_symbols cpf_string
  match require_format cpf_digits allow_missing_check_digits with
  | .error e => .error e
  | .ok _ =>
    if cpf_string.length = 11 then
      if has_correct_check_digit cpf_digits = false then
        .error ⟨.invalidCheckDigit, "CPF check digit incorrect"⟩
      else if is_specifically_invalid_number cpf_digits = true then
        .error ⟨.invalidCheckDigit, "CPF number specifically invalid"⟩
      else .ok ()
    else .ok ()

/-- `is_valid` of `cpf.py`: call `require_valid` and collapse any
`InvalidIdError` to `False`. -/
def is_valid (cpf_string : List Char) (allow_missing_check_digits : Bool) : Bool :=
  match require_valid cpf_string allow_missing_check_digits with
  | .error _ => false
  | .ok _ => true

/-- The state sealed into a `CPF` instance by `CPF.__init__`: the private
fields `__cpf_digits` and `__valid`. -/
structure CPF where
  cpf_digits : List Char
  valid : Bool
  deriving DecidableEq, Repr

/-- `CPF.__init__` of `cpf.py`: strip symbols, require the permissive
format, then either store the 11 digits as given (recording checksum and
denylist validity) or append the computed check digits to a 9-digit
candidate (recording denylist validity). -/
def CPF.mk' (cpf_string : List Char) : Except PyError CPF :=
  let cpf_digits := strip_symbols cpf_string
  match require_format cpf_digits true with
  | .error e => .error e
  | .ok _ =>
    if cpf_digits.length = 11 then
      .ok ⟨cpf_digits,
        has_correct_check_digit cpf_digits &&
          !is_specifically_invalid_number cpf_digits⟩
    else
      let full := cpf_digits ++ calc_check_digit cpf_digits
      .ok ⟨full, !is_specifically_invalid_number full⟩

/-- `CPF.__eq__`: two instances are equal iff their `__cpf_digits` agree. -/
def CPF.eq (a b : CPF) : Bool :=
  a.cpf_digits == b.cpf_digits

/-- Python's `hash` on `str` is an unspecified but pure function of the
character sequence; modelled by a concrete pure function. -/
def pyStrHash (s : List Char) : Nat :=
  s.foldl (fun h c => h * 31 + c.toNat) 7

/-- `CPF.__hash__`: `hash(self.__cpf_digits)`. -/
def CPF.hash (c : CPF) : Nat :=
  pyStrHash c.cpf_digits

/-- `CPF.digitos_aleatorios`: `self.__cpf_digits[0:8]`. -/
def CPF.digitos_aleatorios (c : CPF) : List Char :=
  c.cpf_digits.take 8

/-- `CPF.digito_regiao_fiscal`: `self.__cpf_digits[8]`. -/
def CPF.digito_regiao_fiscal (c : CPF) : Char :=
  c.cpf_digits.getD 8 ' '

/-- `CPF.digitos_verificadores`: `self.__cpf_digits[9:11]`. -/
def CPF.digitos_verificadores (c : CPF) : List Char :=
  (c.cpf_digits.drop 9).take 2

/-- `CPF.__str__`: the canonical `AAA.AAA.AAB-ZZ` rendering built from
`digitos_aleatorios[0:3]`, `digitos_aleatorios[3:6]`,
`digitos_aleatorios[6:8]`, the region digit and the check digits. -/
def CPF.str (c : CPF) : List Char :=
  c.digitos_aleatorios.take 3
    ++ '.' :: (c.digitos_aleatorios.drop 3).take 3
    ++ '.' :: ((c.digitos_aleatorios.drop 6).take 2 ++ [c.digito_regiao_fiscal])
    ++ '-' :: c.digitos_verificadores

/-- `compare_strings` of `cpf.py`: construct both instances, collapsing an
`InvalidIdFormat` from either construction to `False`, else compare. -/
def compare_strings (cpf_string_a cpf_string_b : List Char) : Bool :=
  match CPF.mk' cpf_string_a with
  | .error _ => false
  | .ok a =>
    match CPF.mk' cpf_string_b with
    | .error _ => false
    | .ok b => CPF.eq a b

/-- Modelled from the spec: the checksum algorithm as §4.2 words it, with
explicit indexed sums — digit at position `i` times weight `i + 1`
(`i = 0..8`) for the first check digit, then digit at position `i` of the
ten-digit extension times weight `i` (`i = 0..9`) for the second, each sum
reduced `mod 11` then `mod 10`.  Used only to compare with the source's
`calc_check_digit`. -/
def specCheckDigits (d : List Char) : List Char :=
  let dv1 :=
    ((List.range 9).foldl (fun acc i => acc + pyInt (d.getD i '0') * (i + 1)) 0) % 11 % 10
  let d10 := d ++ [digitChar dv1]
  let dv2 :=
    ((List.range 10).foldl (fun acc i => acc + pyInt (d10.getD i '0') * i) 0) % 11 % 10
  [digitChar dv1, digitChar dv2]

/-! ## The exception-faithful layer

The functions above model the control flow of `cpf.py` on decimal-digit
content, where `int()` always succeeds.  Python's `str.isdigit`, however, is
true for every character whose Unicode `Numeric_Type` is `Decimal` *or*
`Digit`, while `int()` accepts only the `Decimal` ones: on a `Digit`-only
character such as the superscript `'²'` (U+00B2), `require_format` passes
and `int('²')` inside `calc_check_digit` then raises a bare `ValueError`.
`InvalidIdError` derives *from* `ValueError`, so `except InvalidIdError` and
`except InvalidIdFormat` clauses cannot catch it.  The definitions below
(suffix `E`) re-embed the same source functions with that exception carried
explicitly. -/

/-- A Python exception as raised inside the library: either an instance of
the `InvalidIdError` hierarchy of `exceptions.py`, or a bare `ValueError`
as raised by `int()` on a character without a decimal value.  A bare
`ValueError` is the *parent* class of `InvalidIdError`, so no
`except InvalidIdError` / `except InvalidIdFormat` clause catches it. -/
inductive PyRaise where
  | idError (e : PyError)
  | valueError (msg : String)
  deriving DecidableEq, Repr

/-- Python's `str.isdigit` on a single character: true iff the character's
Unicode `Numeric_Type` is `Decimal` (category `Nd`, e.g. the ASCII digits)
or `Digit` (e.g. the Latin-1 superscripts `¹`, `²`, `³` at code points 185,
178, 179).  Classified exactly on the Basic Latin and Latin-1 Supplement
blocks, which cover every code point this development evaluates; the
further decimal-digit scripts above U+00FF are outside the model. -/
def pyIsdigitChar (c : Char) : Bool :=
  (48 ≤ c.toNat && c.toNat ≤ 57) ||
  c.toNat == 178 || c.toNat == 179 || c.toNat == 185

/-- The decimal value `int()` assigns to a single character: defined only
for `Numeric_Type=Decimal` characters.  On a merely `Digit`-type character
such as `'²'`, Python's `int()` raises `ValueError` even though `isdigit`
is true.  Latin-1 classification scope as in `pyIsdigitChar`. -/
def pyDecimalValue (c : Char) : Option Nat :=
  if 48 ≤ c.toNat && c.toNat ≤ 57 then some (c.toNat - 48) else none

/-- `int(c)` as an exception-aware computation: a bare `ValueError` when
the character has no decimal value. -/
def pyIntE (c : Char) : Except PyRaise Nat :=
  match pyDecimalValue c with
  | some n => .ok n
  | none => .error (.valueError "invalid literal for int() with base 10")

/-- Python's `str.isdigit()` with the faithful per-character
classification: nonempty and every character `Decimal`- or `Digit`-typed. -/
def pyIsdigitU (s : List Char) : Bool :=
  !s.isEmpty && s.all pyIsdigitChar

/-- `require_format` with the faithful `isdigit`: same source structure as
`require_format` above. -/
def require_formatE (cpf_digits : List Char) (allow_missing_check_digits : Bool) :
    Except PyRaise Unit :=
  if pyIsdigitU cpf_digits = false then
    .error (.idError ⟨.invalidCharacters, "CPF must contain digits only."⟩)
  else if cpf_digits.length ≠ 11 then
    if !allow_missing_check_digits then
      .error (.idError ⟨.invalidLength, "CPF length must be 11 digits"⟩)
    else if cpf_digits.length ≠ 9 then
      .error (.idError ⟨.invalidLength, "CPF length must be either 9 or 11 digits"⟩)
    else .ok ()
  else .ok ()

/-- The `multiply_digits` generator with `int()`'s exception: the products
are demanded in order by `sum`, so the first non-decimal character
raises. -/
def multiply_digitsE (digits : List Char) (weights : List Nat) :
    Except PyRaise (List Nat) :=
  (digits.zip weights).mapM (fun p => do pure ((← pyIntE p.1) * p.2))

/-- `calc_check_digit` with `int()`'s exception carried: the structure of
the source function, each digit read through `pyIntE`. -/
def calc_check_digitE (digits : List Char) : Except PyRaise (List Char) := do
  let cpf_digits := digits.take 9
  let prods1 ← multiply_digitsE cpf_digits (List.range' 1 9)
  let dv1 := prods1.sum % 11 % 10
  let prods2 ← multiply_digitsE (cpf_digits ++ [digitChar dv1]) (List.range' 0 10)
  let dv2 := prods2.sum % 11 % 10
  return [digitChar dv1, digitChar dv2]

/-- `has_correct_check_digit` with `int()`'s exception carried. -/
def has_correct_check_digitE (cpf_digits : List Char) : Except PyRaise Bool := do
  let dv ← calc_check_digitE (cpf_digits.take (cpf_digits.length - 2))
  return dv == cpf_digits.drop (cpf_digits.length - 2)

/-- `require_valid` with `int()`'s exception carried; the raw-length guard
of line 251 and the denylist branch of line 255 exactly as in the total
model. -/
def require_validE (cpf_string : List Char) (allow_missing_check_digits : Bool) :
    Except PyRaise Unit :=
  let cpf_digits := strip_symbols cpf_string
  match require_formatE cpf_digits allow_missing_check_digits with
  | .error e => .error e
  | .ok _ =>
    if cpf_string.length = 11 then do
      let hc ← has_correct_check_digitE cpf_digits
      if hc = false then
        .error (.idError ⟨.invalidCheckDigit, "CPF check digit incorrect"⟩)
      else if is_specifically_invalid_number cpf_digits = true then
        .error (.idError ⟨.invalidCheckDigit, "CPF number specifically invalid"⟩)
      else .ok ()
    else .ok ()

/-- `is_valid` with its `except InvalidIdError` clause modelled faithfully:
an `idError` collapses to `false`, a bare `ValueError` propagates
uncaught. -/
def is_validE (cpf_string : List Char) (allow_missing_check_digits : Bool) :
    Except PyRaise Bool :=
  match require_validE cpf_string allow_missing_check_digits with
  | .ok _ => .ok true
  | .error (.idError _) => .ok false
  | .error (.valueError m) => .error (.valueError m)

/-- `CPF.__init__` with `int()`'s exception carried. -/
def CPF.mkE (cpf_string : List Char) : Except PyRaise CPF :=
  let cpf_digits := strip_symbols cpf_string
  match require_formatE cpf_digits true with
  | .error e => .error e
  | .ok _ =>
    if cpf_digits.length = 11 then do
      let hc ← has_correct_check_digitE cpf_digits
      return ⟨cpf_digits, hc && !is_specifically_invalid_number cpf_digits⟩
    else do
      let cd ← calc_check_digitE cpf_digits
      let full := cpf_digits ++ cd
      return ⟨full, !is_specifically_invalid_number full⟩

/-- `compare_strings` with its `except InvalidIdFormat` clause modelled
faithfully: only an `idError` of a format kind collapses to `false`; any
other exception — in particular the bare `ValueError` — propagates. -/
def compare_stringsE (cpf_string_a cpf_string_b : List Char) :
    Except PyRaise Bool :=
  match CPF.mkE cpf_string_a with
  | .error (.idError e) =>
    if e.kind.isInvalidIdFormat then .ok false else .error (.idError e)
  | .error (.valueError m) => .error (.valueError m)
  | .ok a =>
    match CPF.mkE cpf_string_b with
    | .error (.idError e) =>
      if e.kind.isInvalidIdFormat then .ok false else .error (.idError e)
    | .error (.valueError m) => .error (.valueError m)
    | .ok b => .ok (CPF.eq a b)

instance {ε α : Type} [DecidableEq ε] [DecidableEq α] : DecidableEq (Except ε α)
  | .ok a, .ok b =>
    if h : a = b then .isTrue (by rw [h])
    else .isFalse (fun hc => by injection hc; contradiction)
  | .ok _, .error _ => .isFalse (fun hc => Except.noConfusion hc)
  | .error _, .ok _ => .isFalse (fun hc => Except.noConfusion hc)
  | .error e, .error f =>
    if h : e = f then .isTrue (by rw [h])
    else .isFalse (fun hc => by injection hc; contradiction)

/-! ## Helper lemmas -/

/-- A decimal digit is not removed by `strip_symbols`. -/
theorem isStripChar_eq_false_of_digit (c : Char) (h : isAsciiDigit c = true) :
    isStripChar c = false := by
  rw [Bool.eq_false_iff]
  intro hc
  simp only [isAsciiDigit, Bool.and_eq_true, decide_eq_true_eq] at h
  simp only [isStripChar, pyWhitespace, Bool.or_eq_true, Bool.and_eq_true,
    decide_eq_true_eq, beq_iff_eq] at hc
  rcases hc with ((((((((h1 | h2) | h3) | h4) | h5) | h6) | h7) | h8) | h9) | h10
  · omega
  · omega
  · omega
  · omega
  · omega
  · omega
  · omega
  · omega
  · subst h9; exact absurd h (by decide)
  · subst h10; exact absurd h (by decide)

/-- `strip_symbols` leaves an all-digit string unchanged. -/
theorem strip_symbols_of_digits (s : List Char)
    (h : ∀ c ∈ s, isAsciiDigit c = true) : strip_symbols s = s := by
  unfold strip_symbols
  rw [List.filter_eq_self]
  intro c hc
  simp [isStripChar_eq_false_of_digit c (h c hc)]

/-- When is `require_format` satisfied. -/
theorem require_format_ok_iff (d : List Char) (allow : Bool) :
    require_format d allow = .ok () ↔
      pyIsdigit d = true ∧ (d.length = 11 ∨ allow = true ∧ d.length = 9) := by
  unfold require_format
  split_ifs with h1 h2 h3 h4 <;> simp_all

/-- `calc_check_digit` always produces exactly two characters. -/
theorem calc_check_digit_length (d : List Char) :
    (calc_check_digit d).length = 2 := rfl

/-- Rendering a digit value below ten yields a decimal-digit character. -/
theorem isAsciiDigit_digitChar (n : Nat) (h : n < 10) :
    isAsciiDigit (digitChar n) = true := by
  interval_cases n <;> decide

/-- The two characters produced by `calc_check_digit` are decimal digits. -/
theorem calc_check_digit_digits (d : List Char) :
    ∀ c ∈ calc_check_digit d, isAsciiDigit c = true := by
  intro c hc
  unfold calc_check_digit at hc
  simp only [List.mem_cons, List.not_mem_nil, or_false] at hc
  rcases hc with h | h <;>
    (subst h; exact isAsciiDigit_digitChar _ (Nat.mod_lt _ (by omega)))

/-- Reading back the digit rendered by `digitChar`. -/
theorem pyInt_digitChar (n : Nat) (h : n < 10) : pyInt (digitChar n) = n := by
  unfold pyInt digitChar
  interval_cases n <;> rfl

/-- A list of length eleven is an explicit eleven-element list. -/
theorem exists_eleven (l : List Char) (h : l.length = 11) :
    ∃ c0 c1 c2 c3 c4 c5 c6 c7 c8 c9 c10,
      l = [c0, c1, c2, c3, c4, c5, c6, c7, c8, c9, c10] := by
  obtain _ | ⟨c0, l⟩ := l; · simp only [List.length_nil] at h; omega
  obtain _ | ⟨c1, l⟩ := l; · simp only [List.length_cons, List.length_nil] at h; omega
  obtain _ | ⟨c2, l⟩ := l; · simp only [List.length_cons, List.length_nil] at h; omega
  obtain _ | ⟨c3, l⟩ := l; · simp only [List.length_cons, List.length_nil] at h; omega
  obtain _ | ⟨c4, l⟩ := l; · simp only [List.length_cons, List.length_nil] at h; omega
  obtain _ | ⟨c5, l⟩ := l; · simp only [List.length_cons, List.length_nil] at h; omega
  obtain _ | ⟨c6, l⟩ := l; · simp only [List.length_cons, List.length_nil] at h; omega
  obtain _ | ⟨c7, l⟩ := l; · simp only [List.length_cons, List.length_nil] at h; omega
  obtain _ | ⟨c8, l⟩ := l; · simp only [List.length_cons, List.length_nil] at h; omega
  obtain _ | ⟨c9, l⟩ := l; · simp only [List.length_cons, List.length_nil] at h; omega
  obtain _ | ⟨c10, l⟩ := l; · simp only [List.length_cons, List.length_nil] at h; omega
  obtain _ | ⟨c11, l⟩ := l
  · exact ⟨c0, c1, c2, c3, c4, c5, c6, c7, c8, c9, c10, rfl⟩
  · simp only [List.length_cons] at h; omega

/-- A list of length nine is an explicit nine-element list. -/
theorem exists_nine (l : List Char) (h : l.length = 9) :
    ∃ c0 c1 c2 c3 c4 c5 c6 c7 c8,
      l = [c0, c1, c2, c3, c4, c5, c6, c7, c8] := by
  obtain _ | ⟨c0, l⟩ := l; · simp only [List.length_nil] at h; omega
  obtain _ | ⟨c1, l⟩ := l; · simp only [List.length_cons, List.length_nil] at h; omega
  obtain _ | ⟨c2, l⟩ := l; · simp only [List.length_cons, List.length_nil] at h; omega
  obtain _ | ⟨c3, l⟩ := l; · simp only [List.length_cons, List.length_nil] at h; omega
  obtain _ | ⟨c4, l⟩ := l; · simp only [List.length_cons, List.length_nil] at h; omega
  obtain _ | ⟨c5, l⟩ := l; · simp only [List.length_cons, List.length_nil] at h; omega
  obtain _ | ⟨c6, l⟩ := l; · simp only [List.length_cons, List.length_nil] at h; omega
  obtain _ | ⟨c7, l⟩ := l; · simp only [List.length_cons, List.length_nil] at h; omega
  obtain _ | ⟨c8, l⟩ := l; · simp only [List.length_cons, List.length_nil] at h; omega
  obtain _ | ⟨c9, l⟩ := l
  · exact ⟨c0, c1, c2, c3, c4, c5, c6, c7, c8, rfl⟩
  · simp only [List.length_cons] at h; omega

/-! ## The claims -/

/-- C1: the spec requires checksum and denylist verification whenever the
stripped candidate has 11 digits, so the punctuated input `123.456.789-10`,
whose check digits are incorrect, must be rejected.  The code instead guards
those checks by `len(cpf_string) == 11` on the raw, unstripped input
(14 characters here), so it accepts the number: `require_valid` succeeds in
both modes and `is_valid` returns `true`, even though the stripped candidate
has 11 digits and fails the checksum. -/
theorem c1_raw_length_skips_checksum :
    strip_symbols "123.456.789-10".toList = "12345678910".toList ∧
    (strip_symbols "123.456.789-10".toList).length = 11 ∧
    has_correct_check_digit (strip_symbols "123.456.789-10".toList) = false ∧
    ("123.456.789-10".toList).length = 14 ∧
    require_valid "123.456.789-10".toList false = .ok () ∧
    require_valid "123.456.789-10".toList true = .ok () ∧
    is_valid "123.456.789-10".toList false = true ∧
    is_valid "123.456.789-10".toList true = true := by
  decide

/-- C2: on the unpunctuated degenerate input `11111111111` — whose check
digits are correct and whose first nine digits are all equal — the denylist
branch of `require_valid` fires, but it raises `InvalidCheckDigit` (line 255
of `cpf.py`), not the documented `InvalidSpecificId`. -/
theorem c2_denylist_raises_invalid_check_digit :
    has_correct_check_digit "11111111111".toList = true ∧
    is_specifically_invalid_number "11111111111".toList = true ∧
    require_valid "11111111111".toList false =
      .error ⟨.invalidCheckDigit, "CPF number specifically invalid"⟩ ∧
    (∀ m, require_valid "11111111111".toList false ≠
      .error ⟨.invalidSpecificId, m⟩) := by
  refine ⟨by decide, by decide, by decide, ?_⟩
  intro m h
  rw [show require_valid "11111111111".toList false =
      .error ⟨.invalidCheckDigit, "CPF number specifically invalid"⟩ from by decide] at h
  injection h with h
  simp [PyError.mk.injEq] at h

/-- C8 counterexample: `strip_symbols` deletes the tab character, which is
not in the set `{space, dot, dash}`, so the claim that exactly those three
characters are removed fails on the one-character input `"\t"`. -/
theorem c8_counterexample_tab_removed :
    strip_symbols ['\t'] = [] ∧
    ('\t' ≠ ' ' ∧ '\t' ≠ '.' ∧ '\t' ≠ '-') := by
  decide

/-- C8 amended: `strip_symbols` removes exactly the characters matched by
the regex class `[\s.-]` — all Python whitespace (space, tab, newline, …),
`.` and `-` — keeping everything else in order, and it is idempotent.
Stated via: the result is a sublist of the input, the multiplicity of every
character is preserved when it is not in the removed class and zero when it
is, and stripping twice equals stripping once. -/
theorem c8_strip_symbols_exact_and_idempotent (s : List Char) :
    (strip_symbols s).Sublist s ∧
    (∀ c : Char, (strip_symbols s).count c =
      if isStripChar c then 0 else s.count c) ∧
    strip_symbols (strip_symbols s) = strip_symbols s ∧
    (isStripChar ' ' = true ∧ isStripChar '.' = true ∧ isStripChar '-' = true ∧
      isStripChar '\t' = true) := by
  refine ⟨List.filter_sublist s, ?_, ?_, by decide⟩
  · intro c
    by_cases hc : isStripChar c
    · simp only [hc, if_true]
      rw [List.count_eq_zero]
      intro hmem
      have := (List.mem_filter.mp hmem).2
      simp [hc] at this
    · simp only [hc, if_false]
      exact List.count_filter (by simp [hc])
  · unfold strip_symbols
    rw [List.filter_filter]
    apply List.filter_congr
    intro c _
    cases h : isStripChar c <;> simp [h]

/-- C9 counterexample: for the empty input the stripped candidate is empty;
Python's `"".isdigit()` is `False`, so `require_format` (and hence
`require_valid`) reports `InvalidCharacters`, not the `InvalidLength` the
claim asserts for every wrong-length candidate. -/
theorem c9_counterexample_empty_string :
    strip_symbols [] = ([] : List Char) ∧
    ([] : List Char).length ≠ 11 ∧
    require_format [] false =
      .error ⟨.invalidCharacters, "CPF must contain digits only."⟩ ∧
    require_valid [] false =
      .error ⟨.invalidCharacters, "CPF must contain digits only."⟩ ∧
    ErrorKind.invalidCharacters ≠ ErrorKind.invalidLength := by
  decide

/-- C9 amended: checks run in the order character validity, then length,
short-circuiting, except that the empty candidate already fails the
character check (Python's `isdigit` is false on the empty string) and so
reports `InvalidCharacters` rather than `InvalidLength`.  A nonempty
all-digit candidate of wrong length fails with `InvalidLength`; a digits-only
candidate of accepted length never fails `require_format`; and `require_valid`
propagates the format error of its stripped candidate unchanged. -/
theorem c9_check_order (d : List Char) (allow : Bool) :
    (pyIsdigit d = false →
      require_format d allow =
        .error ⟨.invalidCharacters, "CPF must contain digits only."⟩) ∧
    (pyIsdigit d = true → d.length ≠ 11 → allow = false →
      require_format d allow =
        .error ⟨.invalidLength, "CPF length must be 11 digits"⟩) ∧
    (pyIsdigit d = true → d.length ≠ 11 → d.length ≠ 9 → allow = true →
      require_format d allow =
        .error ⟨.invalidLength, "CPF length must be either 9 or 11 digits"⟩) ∧
    (pyIsdigit d = true → (d.length = 11 ∨ allow = true ∧ d.length = 9) →
      require_format d allow = .ok ()) ∧
    (∀ (s : List Char) (e : PyError), strip_symbols s = d →
      require_format d allow = .error e →
      require_valid s allow = .error e) := by
  refine ⟨?_, ?_, ?_, ?_, ?_⟩
  · intro h
    unfold require_format
    simp [h]
  · intro h1 h2 h3
    unfold require_format
    simp [h1, h2, h3]
  · intro h1 h2 h3 h4
    unfold require_format
    simp [h1, h2, h3, h4]
  · intro h1 h2
    rw [require_format_ok_iff]
    exact ⟨h1, h2⟩
  · intro s e hstrip herr
    simp only [require_valid, hstrip, herr]

/-- C9 witness data: the amended theorem applied at concrete inputs — a
candidate with a letter fails with `InvalidCharacters`, a two-digit
candidate fails with `InvalidLength`, and an 11-digit candidate passes
`require_format`. -/
theorem c9_check_order_witness :
    require_format ['1', 'X'] false =
      .error ⟨.invalidCharacters, "CPF must contain digits only."⟩ ∧
    require_format ['1', '2'] false =
      .error ⟨.invalidLength, "CPF length must be 11 digits"⟩ ∧
    require_format "12345678910".toList false = .ok () := by
  refine ⟨(c9_check_order ['1', 'X'] false).1 (by decide),
    (c9_check_order ['1', '2'] false).2.1 (by decide) (by decide) rfl,
    (c9_check_order "12345678910".toList false).2.2.2.1 (by decide)
      (Or.inl (by decide))⟩

/-- Invariant of a constructed instance: the stored string has exactly
eleven characters, all decimal digits. -/
theorem mk'_ok_invariant (s : List Char) (c : CPF) (h : CPF.mk' s = .ok c) :
    c.cpf_digits.length = 11 ∧ ∀ x ∈ c.cpf_digits, isAsciiDigit x = true := by
  simp only [CPF.mk'] at h
  cases hf : require_format (strip_symbols s) true with
  | error e' => rw [hf] at h; exact Except.noConfusion h
  | ok u =>
    rw [hf] at h
    have hok := (require_format_ok_iff _ _).mp (by rw [hf])
    have hdig : ∀ x ∈ strip_symbols s, isAsciiDigit x = true := by
      have := hok.1
      simp only [pyIsdigit, Bool.and_eq_true, List.all_eq_true] at this
      exact this.2
    by_cases hlen : (strip_symbols s).length = 11
    · rw [if_pos hlen] at h
      injection h with h
      subst h
      exact ⟨hlen, hdig⟩
    · rw [if_neg hlen] at h
      injection h with h
      subst h
      have h9 : (strip_symbols s).length = 9 := by
        rcases hok.2 with h' | h'
        · exact absurd h' hlen
        · exact h'.2
      refine ⟨?_, ?_⟩
      · simp [List.length_append, h9, calc_check_digit_length]
      · intro x hx
        rcases List.mem_append.mp hx with hx | hx
        · exact hdig x hx
        · exact calc_check_digit_digits _ x hx

/-- The denylist test only inspects the first nine characters, so appending
anything to a nine-character list does not change it. -/
theorem isSpec_append (d l : List Char) (h9 : d.length = 9) :
    is_specifically_invalid_number (d ++ l) = is_specifically_invalid_number d := by
  obtain ⟨c0, c1, c2, c3, c4, c5, c6, c7, c8, rfl⟩ := exists_nine d h9
  rfl

/-- On a nine-character list the denylist test says exactly that every
character equals the first. -/
theorem isSpec_iff_allEq (d : List Char) (h9 : d.length = 9) :
    is_specifically_invalid_number d = true ↔ ∀ x ∈ d, x = d.getD 0 ' ' := by
  obtain ⟨c0, c1, c2, c3, c4, c5, c6, c7, c8, rfl⟩ := exists_nine d h9
  simp only [is_specifically_invalid_number,
    show List.range' 1 8 = [1, 2, 3, 4, 5, 6, 7, 8] from rfl,
    List.all_cons, List.all_nil, Bool.and_eq_true, beq_iff_eq,
    List.getD_cons_zero, List.getD_cons_succ, List.mem_cons,
    List.not_mem_nil, or_false]
  constructor
  · rintro ⟨h1, h2, h3, h4, h5, h6, h7, h8, -⟩ x hx
    rcases hx with rfl | rfl | rfl | rfl | rfl | rfl | rfl | rfl | rfl <;>
      first | rfl | assumption
  · intro hx
    exact ⟨hx c1 (by simp), hx c2 (by simp), hx c3 (by simp), hx c4 (by simp),
      hx c5 (by simp), hx c6 (by simp), hx c7 (by simp), hx c8 (by simp), trivial⟩

/-- C3: on every nine-character input `calc_check_digit` computes exactly
the specification's two-pass formula — `dv1` is the weighted sum with
weights `1..9` reduced `mod 11` then `mod 10`, and `dv2` is the weighted sum
of the ten-digit extension with weights `0..9` reduced the same way — and it
maps `100000987` to `44`, `280012389` to `38` and `111111111` to `11`. -/
theorem c3_check_digit_formula :
    (∀ d : List Char, d.length = 9 → calc_check_digit d = specCheckDigits d) ∧
    calc_check_digit "100000987".toList = "44".toList ∧
    calc_check_digit "280012389".toList = "38".toList ∧
    calc_check_digit "111111111".toList = "11".toList := by
  refine ⟨?_, by decide, by decide, by decide⟩
  intro d h9
  obtain ⟨c0, c1, c2, c3, c4, c5, c6, c7, c8, rfl⟩ := exists_nine d h9
  simp only [calc_check_digit, specCheckDigits, multiply_digits,
    show List.range' 1 9 = [1, 2, 3, 4, 5, 6, 7, 8, 9] from rfl,
    show List.range' 0 10 = [0, 1, 2, 3, 4, 5, 6, 7, 8, 9] from rfl,
    show List.range 9 = [0, 1, 2, 3, 4, 5, 6, 7, 8] from rfl,
    show List.range 10 = [0, 1, 2, 3, 4, 5, 6, 7, 8, 9] from rfl,
    List.take, List.zip, List.zipWith, List.map, List.sum_cons, List.sum_nil,
    List.foldl, List.append_eq, List.cons_append, List.nil_append,
    List.getD_cons_zero, List.getD_cons_succ]
  ring_nf

/-- C3 witness: the formula equivalence applied at the concrete nine-digit
input `100000987`. -/
theorem c3_check_digit_formula_witness :
    ("100000987".toList).length = 9 ∧
    calc_check_digit "100000987".toList = specCheckDigits "100000987".toList :=
  ⟨by decide, c3_check_digit_formula.1 "100000987".toList (by decide)⟩

/-- C4: the claim — construction never fails on checksum grounds, and only
character/length problems raise — is the spec's intent, but the code
violates it.  Python's `str.isdigit` accepts the `Digit`-typed superscript
`'²'` which `int()` rejects, so the nine-character input `'²²²²²²²²²'`
passes `require_format` (it is well-formed by the code's own format check)
and construction then fails with a bare `ValueError` raised by `int('²')`
inside `calc_check_digit` — an error that is neither `InvalidCharacters`
nor `InvalidLength`, and not even an `InvalidIdError`.  On decimal content
the contract does hold, as the bad-checksum construction here shows:
invalidity is recorded in the `valid` flag, not raised. -/
theorem c4_construction_crashes_on_well_formed_input :
    pyIsdigitChar '²' = true ∧
    pyDecimalValue '²' = none ∧
    require_formatE (List.replicate 9 '²') true = .ok () ∧
    CPF.mkE (List.replicate 9 '²') =
      .error (.valueError "invalid literal for int() with base 10") ∧
    CPF.mkE "123.456.789-10".toList = .ok ⟨"12345678910".toList, false⟩ ∧
    CPF.mkE "123456789".toList = .ok ⟨"12345678909".toList, true⟩ := by
  decide

/-- C5: the claim — `is_valid` and `compare_strings` return a boolean and
never raise for every pair of input strings — is the spec's intent, but the
code violates it.  The bare `ValueError` raised by `int('²')` is the
*parent* class of `InvalidIdError`, so the `except InvalidIdError` clause
of `is_valid` and the `except InvalidIdFormat` clause of `compare_strings`
cannot catch it: `is_valid` on eleven `'²'` characters (raw length 11, so
the checksum branch runs) and `compare_strings` with nine `'²'` characters
as either argument propagate the exception instead of returning `false`.
On content whose characters are decimal or outright invalid, the collapse
to `false` does behave as claimed, as the final conjuncts show. -/
theorem c5_is_valid_compare_strings_crash :
    pyIsdigitChar '²' = true ∧
    require_formatE (List.replicate 11 '²') false = .ok () ∧
    is_validE (List.replicate 11 '²') false =
      .error (.valueError "invalid literal for int() with base 10") ∧
    compare_stringsE (List.replicate 9 '²') "123456789".toList =
      .error (.valueError "invalid literal for int() with base 10") ∧
    compare_stringsE "123456789".toList (List.replicate 9 '²') =
      .error (.valueError "invalid literal for int() with base 10") ∧
    is_validE "12345678910".toList false = .ok false ∧
    is_validE "abcd".toList false = .ok false ∧
    compare_stringsE "abcd".toList "1234567".toList = .ok false := by
  decide

/-- C6: two instances are equal iff their stored digit strings are equal,
the hash depends only on the stored digit string (and hence equal instances
have equal hashes), and the three differently-formatted spellings of the
same number — punctuated, bare 11 digits, bare 9 digits with auto-computed
check digits — compare equal through the code's own comparison helper. -/
theorem c6_equality_hash_contract :
    (∀ x y : CPF, CPF.eq x y = true ↔ x.cpf_digits = y.cpf_digits) ∧
    (∀ x y : CPF, x.cpf_digits = y.cpf_digits → CPF.hash x = CPF.hash y) ∧
    (∀ x y : CPF, CPF.eq x y = true → CPF.hash x = CPF.hash y) ∧
    compare_strings "111.111.111-11".toList "11111111111".toList = true ∧
    compare_strings "111.111.111-11".toList "111111111".toList = true ∧
    compare_strings "11111111111".toList "111111111".toList = true := by
  refine ⟨?_, ?_, ?_, by decide, by decide, by decide⟩
  · intro x y
    simp [CPF.eq]
  · intro x y h
    simp [CPF.hash, h]
  · intro x y h
    simp only [CPF.eq, beq_iff_eq] at h
    simp [CPF.hash, h]

/-- C6 witness: two instances with the same digit string but different
validity flags are equal and have the same hash. -/
theorem c6_equality_hash_contract_witness :
    CPF.eq ⟨"11111111111".toList, true⟩ ⟨"11111111111".toList, false⟩ = true ∧
    CPF.hash ⟨"11111111111".toList, true⟩ =
      CPF.hash ⟨"11111111111".toList, false⟩ := by
  refine ⟨(c6_equality_hash_contract.1 _ _).mpr rfl, ?_⟩
  exact c6_equality_hash_contract.2.2.1 _ _
    ((c6_equality_hash_contract.1 _ _).mpr rfl)

/-- C7: round trip — rendering any successfully constructed instance to its
canonical `AAA.AAA.AAB-ZZ` form and constructing a new instance from that
string succeeds and yields an equal instance. -/
theorem c7_roundtrip (s : List Char) (c : CPF) (h : CPF.mk' s = .ok c) :
    ∃ c2, CPF.mk' (CPF.str c) = .ok c2 ∧ CPF.eq c c2 = true := by
  obtain ⟨h11, hdig⟩ := mk'_ok_invariant s c h
  obtain ⟨d, v⟩ := c
  simp only at h11 hdig
  obtain ⟨c0, c1, c2, c3, c4, c5, c6, c7, c8, c9, c10, rfl⟩ := exists_eleven d h11
  have e0 := isStripChar_eq_false_of_digit c0 (hdig c0 (by simp))
  have e1 := isStripChar_eq_false_of_digit c1 (hdig c1 (by simp))
  have e2 := isStripChar_eq_false_of_digit c2 (hdig c2 (by simp))
  have e3 := isStripChar_eq_false_of_digit c3 (hdig c3 (by simp))
  have e4 := isStripChar_eq_false_of_digit c4 (hdig c4 (by simp))
  have e5 := isStripChar_eq_false_of_digit c5 (hdig c5 (by simp))
  have e6 := isStripChar_eq_false_of_digit c6 (hdig c6 (by simp))
  have e7 := isStripChar_eq_false_of_digit c7 (hdig c7 (by simp))
  have e8 := isStripChar_eq_false_of_digit c8 (hdig c8 (by simp))
  have e9 := isStripChar_eq_false_of_digit c9 (hdig c9 (by simp))
  have e10 := isStripChar_eq_false_of_digit c10 (hdig c10 (by simp))
  have hstr : CPF.str ⟨[c0, c1, c2, c3, c4, c5, c6, c7, c8, c9, c10], v⟩ =
      [c0, c1, c2, '.', c3, c4, c5, '.', c6, c7, c8, '-', c9, c10] := rfl
  have hstrip : strip_symbols
      [c0, c1, c2, '.', c3, c4, c5, '.', c6, c7, c8, '-', c9, c10] =
      [c0, c1, c2, c3, c4, c5, c6, c7, c8, c9, c10] := by
    simp [strip_symbols, List.filter, e0, e1, e2, e3, e4, e5, e6, e7, e8, e9, e10,
      show isStripChar '.' = true from rfl, show isStripChar '-' = true from rfl]
  have hfmt : require_format [c0, c1, c2, c3, c4, c5, c6, c7, c8, c9, c10] true =
      .ok () := by
    apply (require_format_ok_iff _ _).mpr
    refine ⟨?_, Or.inl rfl⟩
    simp only [pyIsdigit, Bool.and_eq_true, List.all_eq_true]
    exact ⟨by simp [List.isEmpty], fun x hx => hdig x hx⟩
  refine ⟨⟨[c0, c1, c2, c3, c4, c5, c6, c7, c8, c9, c10],
    has_correct_check_digit [c0, c1, c2, c3, c4, c5, c6, c7, c8, c9, c10] &&
      !is_specifically_invalid_number [c0, c1, c2, c3, c4, c5, c6, c7, c8, c9, c10]⟩,
    ?_, ?_⟩
  · simp only [CPF.mk', hstr, hstrip, hfmt]
    rw [if_pos h11]
  · simp [CPF.eq]

/-- C7 witness: the round trip applied to the instance built from
`123.456.789-10`. -/
theorem c7_roundtrip_witness :
    ∃ c2, CPF.mk' (CPF.str ⟨"12345678910".toList, false⟩) = .ok c2 ∧
      CPF.eq ⟨"12345678910".toList, false⟩ c2 = true :=
  c7_roundtrip "123.456.789-10".toList ⟨"12345678910".toList, false⟩ (by decide)

/-- C10: appending the computed check digits to any nine-character string
yields a string that passes `has_correct_check_digit`; consequently an
instance constructed from a nine-digit string stores exactly that extension
and is valid precisely unless all nine digits are identical. -/
theorem c10_append_check_digits (d : List Char) (h9 : d.length = 9) :
    has_correct_check_digit (d ++ calc_check_digit d) = true ∧
    (pyIsdigit d = true →
      ∃ c, CPF.mk' d = .ok c ∧
        c.cpf_digits = d ++ calc_check_digit d ∧
        (c.valid = true ↔ ¬ ∀ x ∈ d, x = d.getD 0 ' ')) := by
  constructor
  · unfold has_correct_check_digit
    have hlen : (d ++ calc_check_digit d).length - 2 = 9 := by
      simp [List.length_append, h9, calc_check_digit_length]
    rw [hlen, List.take_left' h9, List.drop_left' h9]
    simp
  · intro hd
    have hdig : ∀ x ∈ d, isAsciiDigit x = true := by
      simp only [pyIsdigit, Bool.and_eq_true, List.all_eq_true] at hd
      exact hd.2
    have hstrip : strip_symbols d = d := strip_symbols_of_digits d hdig
    have hfmt : require_format d true = .ok () :=
      (require_format_ok_iff d true).mpr ⟨hd, Or.inr ⟨rfl, h9⟩⟩
    refine ⟨⟨d ++ calc_check_digit d,
      !is_specifically_invalid_number (d ++ calc_check_digit d)⟩, ?_, rfl, ?_⟩
    · simp only [CPF.mk', hstrip, hfmt]
      rw [if_neg (by omega)]
    · rw [isSpec_append d _ h9]
      rw [show (!is_specifically_invalid_number d) = true ↔
          is_specifically_invalid_number d = false from by simp]
      rw [← isSpec_iff_allEq d h9]
      simp

/-- C10 witness: the property applied to the concrete nine-digit string
`123456789`, whose digits are not all identical, so the constructed
instance is valid. -/
theorem c10_append_check_digits_witness :
    has_correct_check_digit
      ("123456789".toList ++ calc_check_digit "123456789".toList) = true ∧
    (∃ c, CPF.mk' "123456789".toList = .ok c ∧
      c.cpf_digits = "123456789".toList ++ calc_check_digit "123456789".toList ∧
      (c.valid = true ↔
        ¬ ∀ x ∈ "123456789".toList, x = ("123456789".toList).getD 0 ' ')) :=
  ⟨(c10_append_check_digits "123456789".toList (by decide)).1,
    (c10_append_check_digits "123456789".toList (by decide)).2 (by decide)⟩

end NumerosCadastrais
